import Mathlib

/-!
Verification of the transport and buffering core of libmemcached (files
src/libmemcached/io.cc and src/libmemcached/do.cc) against its
natural-language specification.

The C code is shallowly embedded: the per-connection state
(memcached_instance_st) is a Lean structure, the kernel I/O primitives
(recv, send, poll, getsockopt, sendmsg) and the collaborators that live
outside the two source files (memcached_purge, memcached_response) are
driven by a script of events consumed in order, and every C function is
translated into an executable Lean function over that state and script.
Loops carry an explicit fuel argument; running out of fuel or meeting a
script event of the wrong shape yields none, so a some result always
corresponds to a genuine finite execution of the C control flow.
-/

/-- Errno values distinguished by the source's switch statements. -/
inductive Errno
  | eintr
  | eagain
  | erestart
  | etimedout
  | enobufs
  | epipe
  | enotconn
  | emsgsize
  | econnrefused
  | einval
  | efault
  | enomem
  | ebadf
  | enotsock
  | other (n : Nat)
deriving DecidableEq, Repr

/-- Result kinds of memcached_return_t actually produced by the modelled code. -/
inductive MemcachedReturn
  | success
  | failure
  | timeout
  | connectionFailure
  | protocolError
  | writeFailure
  | notSupported
  | memoryAllocationFailure
  | inProgress
  | errno (e : Errno)
deriving DecidableEq, Repr

/-- Lifecycle states of a connection (MEMCACHED_SERVER_STATE_...). -/
inductive ServerState
  | new
  | connected
  | shuttingDown
  | closed
deriving DecidableEq, Repr

/-- Result of one recv call on the socket. -/
inductive RecvResult
  | bytes (bs : List Nat)
  | eof
  | err (e : Errno)
deriving DecidableEq, Repr

/-- Result of one send or sendmsg call: sent n bytes (n = 0 means the call
reported neither success nor an error), or a negative return with an errno. -/
inductive SendResult
  | sent (n : Nat)
  | err (e : Errno)
deriving DecidableEq, Repr

/-- Revents reported by poll for a single descriptor. -/
structure Revents where
  pollin : Bool
  pollout : Bool
  pollhup : Bool
  pollerr : Bool
deriving DecidableEq, Repr

/-- Result of one poll call on a single descriptor. -/
inductive PollResult
  | active (rv : Revents)
  | timeout
  | err (e : Errno)
deriving DecidableEq, Repr

/-- Result of a getsockopt SO_ERROR query: the query itself failed, or it
succeeded and the pending socket error is zero, or some errno. -/
inductive SockoptResult
  | fail
  | noError
  | pending (e : Errno)
deriving DecidableEq, Repr

/-- Result of the multi-descriptor poll used by the readable-server selector:
an error, a timeout, or a list of file descriptors reported readable. -/
inductive PollMultiResult
  | err (e : Errno)
  | timeout
  | ready (readable : List Nat)
deriving DecidableEq, Repr

/-- One external event consumed by the embedded code, in program order. -/
inductive Ev
  | recv (r : RecvResult)
  | send (r : SendResult)
  | poll (r : PollResult)
  | sockopt (r : SockoptResult)
  | purge (ok : Bool)
  | response (ok : Bool)
  | sendmsg (r : SendResult)
  | poll_multi (r : PollMultiResult)
deriving DecidableEq, Repr

/-- Fixed capacity of the per-connection read and write buffers.  Modelled from
the spec: the constant MEMCACHED_MAX_BUFFER lives in headers outside src/; its
value (8192 in the library) is immaterial to the claims. -/
def MEMCACHED_MAX_BUFFER : Nat := 8192

/-- Size of the UDP datagram header.  Modelled from the spec: the constant is
defined in headers outside src/; its exact value is immaterial to the claims. -/
def UDP_DATAGRAM_HEADER_LENGTH : Nat := 8

/-- Write the byte list bs into the buffer f starting at offset off. -/
def bufWrite (f : Nat → Nat) (off : Nat) (bs : List Nat) : Nat → Nat :=
  fun i => if off ≤ i ∧ i < off + bs.length then bs.getD (i - off) 0 else f i

/-- Read n bytes from the buffer f starting at offset off. -/
def bufRead (f : Nat → Nat) (off n : Nat) : List Nat :=
  (List.range n).map fun i => f (off + i)

/-- Move len bytes from offset src of f to the front of f (memmove). -/
def bufMoveFront (f : Nat → Nat) (src len : Nat) : Nat → Nat :=
  fun i => if i < len then f (src + i) else f i

/-- Length of the NUL-terminated prefix of f starting at index i, scanning at
most fuel bytes (C strlen, bounded by the buffer capacity in this model). -/
def strlenAux (f : Nat → Nat) : Nat → Nat → Nat
  | 0, _ => 0
  | fuel + 1, i => if f i = 0 then 0 else strlenAux f fuel (i + 1) + 1

/-- strlen of the read buffer contents, bounded by the buffer capacity. -/
def bufStrlen (f : Nat → Nat) : Nat :=
  strlenAux f MEMCACHED_MAX_BUFFER 0

/-- Fields of the owning Memcached root object used by the modelled code. -/
structure Memcached where
  poll_timeout : Int
  is_udp : Bool
  is_replying : Bool
  has_callbacks : Bool
  last_error : Option MemcachedReturn
deriving DecidableEq, Repr

/-- Per-connection state: the fields of memcached_instance_st read or written
by io.cc and do.cc.  Buffers are modelled as total functions from offsets to
byte values; read_ptr is modelled as the offset read_ptr_off into read_buffer. -/
structure memcached_instance_st where
  fd_valid : Bool
  read_buffer : Nat → Nat
  read_ptr_off : Nat
  read_buffer_length : Nat
  read_data_length : Nat
  write_buffer : Nat → Nat
  write_buffer_offset : Nat
  io_bytes_sent : Nat
  io_wait_count_read : Nat
  io_wait_count_write : Nat
  io_wait_count_bytes_read : Nat
  cursor_active : Nat
  is_shutting_down : Bool
  state : ServerState
  major_version : Nat
  minor_version : Nat
  micro_version : Nat
  udp_message_id : Nat
  has_root : Bool
  root : Memcached
  last_error : Option MemcachedReturn

/-- A default connection state used to build concrete witnesses. -/
def inst0 : memcached_instance_st where
  fd_valid := true
  read_buffer := fun _ => 0
  read_ptr_off := 0
  read_buffer_length := 0
  read_data_length := 0
  write_buffer := fun _ => 0
  write_buffer_offset := 0
  io_bytes_sent := 0
  io_wait_count_read := 0
  io_wait_count_write := 0
  io_wait_count_bytes_read := 0
  cursor_active := 0
  is_shutting_down := false
  state := ServerState.connected
  major_version := 1
  minor_version := 0
  micro_version := 0
  udp_message_id := 0
  has_root := true
  root := { poll_timeout := 1000, is_udp := false, is_replying := true,
            has_callbacks := false, last_error := none }
  last_error := none

/-- Modelled from the spec: the error-reporting sink.  memcached_set_error
(error.cc, not under src/) records the error kind as the connection's (and its
root's) last error and returns it. -/
def memcached_set_error (st : memcached_instance_st) (rc : MemcachedReturn) :
    MemcachedReturn × memcached_instance_st :=
  (rc, { st with last_error := some rc,
                 root := { st.root with last_error := some rc } })

/-- Modelled from the spec: memcached_set_errno records a catch-all I/O error
carrying the captured OS error code. -/
def memcached_set_errno (st : memcached_instance_st) (e : Errno) :
    MemcachedReturn × memcached_instance_st :=
  memcached_set_error st (MemcachedReturn.errno e)

/-- Modelled from the spec: whether an error has been recorded on the connection. -/
def memcached_has_error (st : memcached_instance_st) : Bool :=
  st.last_error.isSome

/-- Modelled from the spec: the last error recorded on the connection (the code
only consults it after memcached_has_error). -/
def memcached_instance_error_return (st : memcached_instance_st) : MemcachedReturn :=
  st.last_error.getD MemcachedReturn.success

/-- memcached_instance_st close_socket, io.cc lines 959 to 993.  The argument
shutdown_ok is the result of the shutdown system call; the source ignores it
except for debug-only watchpoints.  memcached_server_response_reset
(response.cc, not under src/) is modelled from the spec as resetting the
pending-response count, which line 982 already zeroes. -/
def close_socket (shutdown_ok : Bool) (st : memcached_instance_st) :
    memcached_instance_st :=
  let st1 := if st.fd_valid then
      { st with fd_valid := false, state := ServerState.new } else st
  { st1 with
    state := ServerState.new
    cursor_active := 0
    io_bytes_sent := 0
    write_buffer_offset :=
      if st1.has_root && st1.root.is_udp then UDP_DATAGRAM_HEADER_LENGTH else 0
    read_buffer_length := 0
    read_ptr_off := 0
    is_shutting_down := false
    major_version := 255
    minor_version := 255
    micro_version := 255 }

/-- Modelled from the spec: memcached_quit_server (quit.cc, not under src/)
with io_death set closes the connection; modelled as close_socket. -/
def memcached_quit_server (st : memcached_instance_st) : memcached_instance_st :=
  close_socket true st

/-- Outcome of one pass through the io_wait retry loop: an explicit return, or
falling out of the while loop (by exhausting the counter or by break). -/
inductive IoWaitLoopOut
  | ret (r : MemcachedReturn)
  | fell
deriving DecidableEq, Repr

/-- The retry loop of io_wait, io.cc lines 229 to 303.  The counter argument is
loop_max; the C loop is while (--loop_max), so a call with loop_max = 5 runs
the body at counter values 4, 3, 2, 1: at most four poll calls. -/
def io_wait_loop : Nat → memcached_instance_st → List Ev →
    Option (IoWaitLoopOut × memcached_instance_st × List Ev)
  | 0, st, evs => some (IoWaitLoopOut.fell, st, evs)
  | 1, st, evs => some (IoWaitLoopOut.fell, st, evs)
  | n + 2, st, evs =>
    match evs with
    | Ev.poll r :: evs1 =>
      match r with
      | PollResult.active rv =>
        if rv.pollin || rv.pollout then
          some (IoWaitLoopOut.ret MemcachedReturn.success, st, evs1)
        else if rv.pollhup then
          let p := memcached_set_error st MemcachedReturn.connectionFailure
          some (IoWaitLoopOut.ret p.1, p.2, evs1)
        else if rv.pollerr then
          match evs1 with
          | Ev.sockopt s :: evs2 =>
            match s with
            | SockoptResult.noError => io_wait_loop (n + 1) st evs2
            | SockoptResult.pending e =>
              let st1 := memcached_quit_server st
              let p := memcached_set_errno st1 e
              some (IoWaitLoopOut.ret p.1, p.2, evs2)
            | SockoptResult.fail =>
              let st1 := memcached_quit_server st
              let p := memcached_set_errno st1 Errno.einval
              some (IoWaitLoopOut.ret p.1, p.2, evs2)
          | _ => none
        else
          let p := memcached_set_error st MemcachedReturn.failure
          some (IoWaitLoopOut.ret p.1, p.2, evs1)
      | PollResult.timeout =>
        let p := memcached_set_error st MemcachedReturn.timeout
        some (IoWaitLoopOut.ret p.1, p.2, evs1)
      | PollResult.err e =>
        if e = Errno.eintr ∨ e = Errno.erestart then
          io_wait_loop (n + 1) st evs1
        else
          let st1 := if e = Errno.efault ∨ e = Errno.enomem then
              (memcached_set_error st MemcachedReturn.memoryAllocationFailure).2
            else st
          let st2 := if e = Errno.efault ∨ e = Errno.enomem ∨ e = Errno.einval then
              (memcached_set_error st1 MemcachedReturn.memoryAllocationFailure).2
            else st1
          let p := memcached_set_errno st2 e
          some (IoWaitLoopOut.fell, p.2, evs1)
    | _ => none

/-- io_wait after the initial purge step: the wait-counter bump, the zero
poll-timeout shortcut, the retry loop started at loop_max = 5, and the
exhaustion path that closes the connection and surfaces the last recorded
error or a generic connection failure, io.cc lines 210 to 314. -/
def io_wait_after_purge (st0 : memcached_instance_st) (pollout : Bool) (evs : List Ev) :
    Option (MemcachedReturn × memcached_instance_st × List Ev) :=
  let st := if pollout then
      { st0 with io_wait_count_write := st0.io_wait_count_write + 1 }
    else
      { st0 with io_wait_count_read := st0.io_wait_count_read + 1 }
  if st.root.poll_timeout = 0 then
    let p := memcached_set_error st MemcachedReturn.timeout
    some (p.1, p.2, evs)
  else
    match io_wait_loop 5 st evs with
    | none => none
    | some (IoWaitLoopOut.ret r, st1, evs1) => some (r, st1, evs1)
    | some (IoWaitLoopOut.fell, st1, evs1) =>
      let st2 := memcached_quit_server st1
      if memcached_has_error st2 then
        some (memcached_instance_error_return st2, st2, evs1)
      else
        let p := memcached_set_error st2 MemcachedReturn.connectionFailure
        some (p.1, p.2, evs1)

/-- io_wait, io.cc lines 188 to 314.  When the requested interest includes
POLLOUT it first runs memcached_purge (purge.cc, not under src/, modelled from
the spec as an external drain step with a scripted outcome that leaves the
modelled connection fields unchanged); a purge failure returns
MEMCACHED_FAILURE at once. -/
def io_wait (st : memcached_instance_st) (pollout : Bool) (evs : List Ev) :
    Option (MemcachedReturn × memcached_instance_st × List Ev) :=
  if pollout then
    match evs with
    | Ev.purge ok :: evs1 =>
      if ok then io_wait_after_purge st true evs1
      else some (MemcachedReturn.failure, st, evs1)
    | _ => none
  else io_wait_after_purge st false evs

/-- Revents word carrying only the error-condition bit, as reported in the
spurious case where poll flags POLLERR but the queried socket error is zero. -/
def pollerrOnly : Revents where
  pollin := false
  pollout := false
  pollhup := false
  pollerr := true

/-- Event block for one spurious poll round: POLLERR reported, getsockopt
answering that the pending socket error is zero. -/
def spuriousBlock : List Ev :=
  [Ev.poll (PollResult.active pollerrOnly), Ev.sockopt SockoptResult.noError]

/-- The receive loop of _io_fill, io.cc lines 497 to 586, following the
ENABLE_SOCKET_FUNCTIONS receive path.  A recv of n (n positive) writes n bytes
at the start of the read buffer and adds n to the cumulative bytes-read
counter before the loop exits; recv returning zero is the eof event here (the
bytes constructor with an empty list is treated as an ill-formed script). -/
def _io_fill_loop : Nat → memcached_instance_st → List Ev →
    Option ((MemcachedReturn ⊕ Nat) × memcached_instance_st × List Ev)
  | 0, _, _ => none
  | fuel + 1, st, evs =>
    match evs with
    | Ev.recv r :: evs1 =>
      match r with
      | RecvResult.err e =>
        if e = Errno.eintr then _io_fill_loop fuel st evs1
        else if e = Errno.etimedout ∨ e = Errno.eagain ∨ e = Errno.erestart then
          match io_wait st false evs1 with
          | none => none
          | some (rc, st1, evs2) =>
            if rc = MemcachedReturn.success then _io_fill_loop fuel st1 evs2
            else some (Sum.inl rc, st1, evs2)
        else
          let st1 := memcached_quit_server st
          let p := memcached_set_errno st1 e
          some (Sum.inl (memcached_instance_error_return p.2), p.2, evs1)
      | RecvResult.eof =>
        let st1 := memcached_quit_server st
        let p := memcached_set_error st1 MemcachedReturn.connectionFailure
        some (Sum.inl p.1, p.2, evs1)
      | RecvResult.bytes bs =>
        match bs with
        | [] => none
        | b :: bt =>
          let st1 := { st with
            read_buffer := bufWrite st.read_buffer 0 (b :: bt),
            io_wait_count_bytes_read := st.io_wait_count_bytes_read + (b :: bt).length }
          some (Sum.inr (b :: bt).length, st1, evs1)
    | _ => none

/-- _io_fill, io.cc lines 474 to 610.  When the receive loop yields a positive
count, the unconditional tail (lines 599 to 603) recomputes the count as
strlen of the read buffer, zeroes io_bytes_sent, assigns (rather than appends
to) the data length and the buffer length, and resets the read cursor to the
buffer start.  The MPI_Test wait loop at lines 587 to 595 only blocks in real
time and changes no modelled connection field. -/
def _io_fill (fuel : Nat) (st : memcached_instance_st) (evs : List Ev) :
    Option (MemcachedReturn × memcached_instance_st × List Ev) :=
  match _io_fill_loop fuel st evs with
  | none => none
  | some (Sum.inl rc, st1, evs1) => some (rc, st1, evs1)
  | some (Sum.inr _, st1, evs1) =>
    let n := bufStrlen st1.read_buffer
    some (MemcachedReturn.success,
      { st1 with
        io_bytes_sent := 0,
        read_data_length := n,
        read_buffer_length := n,
        read_ptr_off := 0 }, evs1)

/-- Modelled from the spec: the classification helpers from the public
headers (not under src/).  Among the return kinds this model produces, only
success is a success; everything else is failed, and fatal coincides with
failed on the kinds the refill can return. -/
def memcached_failed (rc : MemcachedReturn) : Bool :=
  rc ≠ MemcachedReturn.success

/-- Modelled from the spec: fatal classification of a refill result. -/
def memcached_fatal (rc : MemcachedReturn) : Bool :=
  rc ≠ MemcachedReturn.success

/-- The copy loop of memcached_io_read, io.cc lines 639 to 702, accumulating
the bytes copied to the caller's buffer.  The single-byte branch breaks out of
the loop after one byte, as in the source. -/
def memcached_io_read_loop : Nat → memcached_instance_st → Nat → List Nat → List Ev →
    Option (MemcachedReturn × List Nat × Int × memcached_instance_st × List Ev)
  | 0, _, _, _, _ => none
  | fuel + 1, st, length, acc, evs =>
    if length = 0 then
      some (MemcachedReturn.success, acc, Int.ofNat acc.length, st, evs)
    else
      match (if st.read_buffer_length = 0 then _io_fill fuel st evs
             else some (MemcachedReturn.success, st, evs)) with
      | none => none
      | some (frc, st1, evs1) =>
        if memcached_fatal frc then
          some (frc, acc, -1, st1, evs1)
        else
          if 1 < length then
            let difference := min length st1.read_buffer_length
            let copied := bufRead st1.read_buffer st1.read_ptr_off difference
            let st2 := { st1 with
              read_ptr_off := st1.read_ptr_off + difference,
              read_buffer_length := st1.read_buffer_length - difference }
            memcached_io_read_loop fuel st2 (length - difference) (acc ++ copied) evs1
          else
            let byte := st1.read_buffer st1.read_ptr_off
            let st2 := { st1 with
              read_ptr_off := st1.read_ptr_off + 1,
              read_buffer_length := st1.read_buffer_length - 1 }
            some (MemcachedReturn.success, acc ++ [byte],
              Int.ofNat (acc.length + 1), st2, evs1)

/-- memcached_io_read, io.cc lines 612 to 709.  An invalid descriptor returns
MEMCACHED_CONNECTION_FAILURE without assigning nread (modelled as 0; no claim
depends on that value). -/
def memcached_io_read (fuel : Nat) (st : memcached_instance_st) (length : Nat)
    (evs : List Ev) :
    Option (MemcachedReturn × List Nat × Int × memcached_instance_st × List Ev) :=
  if st.fd_valid = false then
    some (MemcachedReturn.connectionFailure, [], 0, st, evs)
  else memcached_io_read_loop fuel st length [] evs

/-- The buffered copy loop of memcached_io_readline, io.cc lines 1162 to 1182:
copy bytes from the read buffer while it is nonempty, total_nr is below size
and no line terminator has been copied. -/
def readline_inner : Nat → memcached_instance_st → Nat → Nat → Bool → List Nat →
    Option (memcached_instance_st × Nat × Bool × List Nat)
  | 0, _, _, _, _, _ => none
  | fuel + 1, st, size, total, complete, out =>
    if st.read_buffer_length ≠ 0 ∧ total < size ∧ complete = false then
      let byte := st.read_buffer st.read_ptr_off
      let complete1 := if byte = 10 then true else complete
      let st1 := { st with
        read_buffer_length := st.read_buffer_length - 1,
        read_ptr_off := st.read_ptr_off + 1 }
      readline_inner fuel st1 size (total + 1) complete1 (out ++ [byte])
    else some (st, total, complete, out)

/-- The outer loop of memcached_io_readline, io.cc lines 1117 to 1190: while
the line is not complete, refill through memcached_io_read when the buffer is
empty (copying a single byte), run the buffered copy loop, and return
MEMCACHED_PROTOCOL_ERROR whenever total_nr has reached size, whether or not
the terminator has just been copied. -/
def memcached_io_readline_loop : Nat → memcached_instance_st → Nat → Nat → Bool →
    List Nat → List Ev →
    Option (MemcachedReturn × Nat × List Nat × memcached_instance_st × List Ev)
  | 0, _, _, _, _, _, _ => none
  | fuel + 1, st, size, total, complete, out, evs =>
    if complete = true then
      some (MemcachedReturn.success, total, out, st, evs)
    else if st.read_buffer_length = 0 then
      match memcached_io_read fuel st 1 evs with
      | none => none
      | some (rc, copied, _, st1, evs1) =>
        if memcached_failed rc ∧ rc = MemcachedReturn.inProgress then
          let st2 := memcached_quit_server st1
          let p := memcached_set_error st2 rc
          some (p.1, total, out, p.2, evs1)
        else if memcached_failed rc then
          some (rc, total, out, st1, evs1)
        else
          let byte := copied.headD 0
          let complete1 := if byte = 10 then true else false
          match readline_inner fuel st1 size (total + 1) complete1 (out ++ [byte]) with
          | none => none
          | some (st2, total2, complete2, out2) =>
            if total2 = size then
              some (MemcachedReturn.protocolError, total2, out2, st2, evs1)
            else memcached_io_readline_loop fuel st2 size total2 complete2 out2 evs1
    else
      match readline_inner fuel st size total complete out with
      | none => none
      | some (st2, total2, complete2, out2) =>
        if total2 = size then
          some (MemcachedReturn.protocolError, total2, out2, st2, evs)
        else memcached_io_readline_loop fuel st2 size total2 complete2 out2 evs

/-- memcached_io_readline, io.cc lines 1105 to 1195, started with total_nr
zero and no line terminator seen.  The result carries the return code,
total_nr, the bytes copied to the destination buffer, the connection and the
remaining script. -/
def memcached_io_readline (fuel : Nat) (st : memcached_instance_st) (size : Nat)
    (evs : List Ev) :
    Option (MemcachedReturn × Nat × List Nat × memcached_instance_st × List Ev) :=
  memcached_io_readline_loop fuel st size 0 false [] evs

/-- A connection whose read buffer holds the four unread bytes 97, 98, 99, 10:
three data bytes followed by a line terminator. -/
def c1inst : memcached_instance_st :=
  { inst0 with
    read_buffer := fun i => [97, 98, 99, 10].getD i 0,
    read_buffer_length := 4,
    read_data_length := 4 }

/-- repack_input_buffer, io.cc lines 73 to 134: move unread data to the front
of the read buffer, then try a single nonblocking recv to append more data.
Inside the do-while(false), the EINTR continue re-evaluates the false loop
condition and exits, so every non-positive recv outcome ends in return false,
recording an error only for eof and for errnos other than
EINTR/EAGAIN/ERESTART. -/
def repack_input_buffer (st : memcached_instance_st) (evs : List Ev) :
    Option (Bool × memcached_instance_st × List Ev) :=
  let st1 := if st.read_ptr_off ≠ 0 then
      { st with
        read_buffer := bufMoveFront st.read_buffer st.read_ptr_off st.read_buffer_length,
        read_ptr_off := 0,
        read_data_length := st.read_buffer_length }
    else st
  if st1.read_buffer_length ≠ MEMCACHED_MAX_BUFFER then
    match evs with
    | Ev.recv r :: evs1 =>
      match r with
      | RecvResult.bytes bs =>
        match bs with
        | [] => none
        | b :: bt =>
          let st2 := { st1 with
            read_buffer := bufWrite st1.read_buffer
              (st1.read_ptr_off + st1.read_data_length) (b :: bt),
            read_data_length := st1.read_data_length + (b :: bt).length,
            read_buffer_length := st1.read_buffer_length + (b :: bt).length }
          some (true, st2, evs1)
      | RecvResult.eof =>
        let p := memcached_set_error st1 MemcachedReturn.connectionFailure
        some (false, p.2, evs1)
      | RecvResult.err e =>
        if e = Errno.eintr ∨ e = Errno.eagain ∨ e = Errno.erestart then
          some (false, st1, evs1)
        else
          let p := memcached_set_errno st1 e
          some (false, p.2, evs1)
    | _ => none
  else some (false, st1, evs)

/-- process_input_buffer, io.cc lines 146 to 186.  When callbacks are
configured it reads one response through memcached_response (response.cc, not
under src/, modelled from the spec as the external protocol-response consumer
with a scripted outcome; its effect on the read buffer is not modelled since
no claim depends on it) and returns true regardless of that outcome;
otherwise it returns false. -/
def process_input_buffer (st : memcached_instance_st) (evs : List Ev) :
    Option (Bool × memcached_instance_st × List Ev) :=
  if st.root.has_callbacks then
    match evs with
    | Ev.response _ :: evs1 => some (true, st, evs1)
    | _ => none
  else some (false, st, evs)

/-- The send loop of io_flush, io.cc lines 352 to 446.  The pointer into the
write buffer and the remaining length are locals; a partial send advances only
these locals, and the connection's write_buffer_offset is reset to zero only
when the loop drains completely.  A timeout from the poll gate returns false
while leaving the error out-parameter at its current value (success). -/
def io_flush_loop : Nat → memcached_instance_st → Bool → Nat → Nat → List Ev →
    Option (Bool × MemcachedReturn × memcached_instance_st × List Ev)
  | 0, _, _, _, _, _ => none
  | fuel + 1, st, with_flush, ptr, wlen, evs =>
    if wlen = 0 then
      some (true, MemcachedReturn.success, { st with write_buffer_offset := 0 }, evs)
    else
      match evs with
      | Ev.send r :: evs1 =>
        match r with
        | SendResult.sent n =>
          let st1 := { st with io_bytes_sent := st.io_bytes_sent + n }
          io_flush_loop fuel st1 with_flush (ptr + n) (wlen - n) evs1
        | SendResult.err e =>
          if e = Errno.enobufs then
            io_flush_loop fuel st with_flush ptr wlen evs1
          else if e = Errno.eagain then
            match repack_input_buffer st evs1 with
            | none => none
            | some (rb, st1, evs2) =>
              if rb then io_flush_loop fuel st1 with_flush ptr wlen evs2
              else
                match process_input_buffer st1 evs2 with
                | none => none
                | some (pb, st2, evs3) =>
                  if pb then io_flush_loop fuel st2 with_flush ptr wlen evs3
                  else
                    match io_wait st2 true evs3 with
                    | none => none
                    | some (rc, st3, evs4) =>
                      if rc = MemcachedReturn.success then
                        io_flush_loop fuel st3 with_flush ptr wlen evs4
                      else if rc = MemcachedReturn.timeout then
                        some (false, MemcachedReturn.success, st3, evs4)
                      else
                        let st4 := memcached_quit_server st3
                        let p := memcached_set_errno st4 e
                        some (false, p.1, p.2, evs4)
          else
            let st1 := memcached_quit_server st
            let p := memcached_set_errno st1 e
            some (false, p.1, p.2, evs1)
      | _ => none

/-- io_flush, io.cc lines 324 to 452: first memcached_purge (purge.cc, not
under src/, modelled from the spec as an external drain step with a scripted
outcome that leaves the modelled connection fields unchanged); a drain failure
returns false without assigning the error out-parameter, so err_in, the
caller's possibly uninitialised error variable, is returned unchanged there;
otherwise the error is set to success and the send loop drains the write
buffer. -/
def io_flush (fuel : Nat) (st : memcached_instance_st) (with_flush : Bool)
    (err_in : MemcachedReturn) (evs : List Ev) :
    Option (Bool × MemcachedReturn × memcached_instance_st × List Ev) :=
  match evs with
  | Ev.purge ok :: evs1 =>
    if ok then io_flush_loop fuel st with_flush 0 st.write_buffer_offset evs1
    else some (false, err_in, st, evs1)
  | _ => none

/-- The copy loop of _io_write together with its trailing flush, io.cc lines
768 to 849.  The remaining caller bytes are a list; written is the original
length minus the remaining length at the point of return, as in the source.
The rc local that _io_write passes to io_flush is never read afterwards; the
model passes success in its place. -/
def _io_write_loop : Nat → memcached_instance_st → List Nat → Nat → Bool → List Ev →
    Option (Bool × Nat × memcached_instance_st × List Ev)
  | 0, _, _, _, _, _ => none
  | fuel + 1, st, remaining, original, with_flush, evs =>
    if remaining.length = 0 then
      if with_flush then
        match io_flush fuel st with_flush MemcachedReturn.success evs with
        | none => none
        | some (false, _, st1, evs1) => some (false, original, st1, evs1)
        | some (true, _, st1, evs1) => some (true, original, st1, evs1)
      else some (true, original, st, evs)
    else
      let should_write := min (MEMCACHED_MAX_BUFFER - st.write_buffer_offset)
        remaining.length
      let st1 := { st with
        write_buffer := bufWrite st.write_buffer st.write_buffer_offset
          (remaining.take should_write),
        write_buffer_offset := st.write_buffer_offset + should_write }
      let remaining1 := remaining.drop should_write
      if st1.write_buffer_offset = MEMCACHED_MAX_BUFFER then
        match io_flush fuel st1 with_flush MemcachedReturn.success evs with
        | none => none
        | some (false, _, st2, evs2) =>
          some (false, original - remaining1.length, st2, evs2)
        | some (true, _, st2, evs2) =>
          _io_write_loop fuel st2 remaining1 original with_flush evs2
      else _io_write_loop fuel st1 remaining1 original with_flush evs

/-- _io_write, io.cc lines 768 to 849, on a caller buffer given as a byte
list. -/
def _io_write (fuel : Nat) (st : memcached_instance_st) (buffer : List Nat)
    (with_flush : Bool) (evs : List Ev) :
    Option (Bool × Nat × memcached_instance_st × List Ev) :=
  _io_write_loop fuel st buffer buffer.length with_flush evs

/-- The zero-argument memcached_io_write overload, io.cc lines 851 to 858:
a write of no bytes with an immediate flush. -/
def memcached_io_write (fuel : Nat) (st : memcached_instance_st) (evs : List Ev) :
    Option (Bool × memcached_instance_st × List Ev) :=
  match _io_write fuel st [] true evs with
  | none => none
  | some (ok, _, st1, evs1) => some (ok, st1, evs1)

/-- The part loop of memcached_io_writev, io.cc lines 896 to 918, accumulating
complete_total (requested bytes, added before each attempt) and total (written
bytes, added only after a successful part). -/
def memcached_io_writev_loop (fuel : Nat) :
    memcached_instance_st → List (List Nat) → Nat → Nat → List Ev →
    Option (Bool × Nat × Nat × memcached_instance_st × List Ev)
  | st, [], ct, t, evs => some (true, ct, t, st, evs)
  | st, v :: rest, ct, t, evs =>
    let ct1 := ct + v.length
    if v.length = 0 then memcached_io_writev_loop fuel st rest ct1 t evs
    else
      match _io_write fuel st v false evs with
      | none => none
      | some (false, _, st1, evs1) => some (false, ct1, t, st1, evs1)
      | some (true, written, st1, evs1) =>
        memcached_io_writev_loop fuel st1 rest ct1 (t + written) evs1

/-- memcached_io_writev, io.cc lines 881 to 939.  The result exposes the
function's two tallies, complete_total and total, next to the returned
boolean, which is the final comparison of the two when no part or trailing
flush failed. -/
def memcached_io_writev (fuel : Nat) (st : memcached_instance_st)
    (vectors : List (List Nat)) (with_flush : Bool) (evs : List Ev) :
    Option (Bool × Nat × Nat × memcached_instance_st × List Ev) :=
  match memcached_io_writev_loop fuel st vectors 0 0 evs with
  | none => none
  | some (false, ct, t, st1, evs1) => some (false, ct, t, st1, evs1)
  | some (true, ct, t, st1, evs1) =>
    if with_flush then
      match memcached_io_write fuel st1 evs1 with
      | none => none
      | some (false, st2, evs2) => some (false, ct, t, st2, evs2)
      | some (true, st2, evs2) => some (decide (ct = t), ct, t, st2, evs2)
    else some (decide (ct = t), ct, t, st1, evs1)

/-- A connection whose write buffer is one byte short of full, so that
buffering a single further byte triggers the mid-part flush. -/
def c6full : memcached_instance_st :=
  { inst0 with write_buffer_offset := MEMCACHED_MAX_BUFFER - 1 }

/-- Modelled from the spec: increment_udp_message_id (udp.cc, not under src/)
increments the per-connection UDP message id, wrapping at the width of the
16-bit header field. -/
def increment_udp_message_id (st : memcached_instance_st) : memcached_instance_st :=
  { st with udp_message_id := (st.udp_message_id + 1) % 65536 }

/-- The sendmsg retry loop of _vdo_udp, do.cc lines 39 to 56.  The counter
argument is retry; the C loop is while (--retry) from 5, so the body runs at
counter values 4, 3, 2, 1: at most four sendmsg calls.  The last component of
the result counts the sendmsg calls consumed. -/
def _vdo_udp_loop : Nat → memcached_instance_st → List Ev → Nat →
    Option (MemcachedReturn × memcached_instance_st × List Ev × Nat)
  | 0, st, evs, k => some (MemcachedReturn.success, st, evs, k)
  | 1, st, evs, k => some (MemcachedReturn.success, st, evs, k)
  | n + 2, st, evs, k =>
    match evs with
    | Ev.sendmsg r :: evs1 =>
      match r with
      | SendResult.sent (m + 1) => some (MemcachedReturn.success, st, evs1, k + 1)
      | SendResult.sent 0 => _vdo_udp_loop (n + 1) st evs1 (k + 1)
      | SendResult.err e =>
        if e = Errno.emsgsize then
          let p := memcached_set_error st MemcachedReturn.writeFailure
          some (p.1, p.2, evs1, k + 1)
        else
          let p := memcached_set_errno st e
          some (p.1, p.2, evs1, k + 1)
    | _ => none

/-- _vdo_udp, do.cc lines 14 to 65: reject a call whose first vector slot is
already populated (non-null buffer or nonzero length), stamp the datagram
header (the message id increment; the header bytes are opaque to this core
and the vector contents do not influence the scripted sendmsg outcomes), then
run the bounded sendmsg retry loop; falling out of the loop returns
MEMCACHED_SUCCESS. -/
def _vdo_udp (st : memcached_instance_st) (vec0_null : Bool) (vec0_len : Nat)
    (evs : List Ev) :
    Option (MemcachedReturn × memcached_instance_st × List Ev × Nat) :=
  if vec0_null = false ∨ vec0_len ≠ 0 then
    let p := memcached_set_error st MemcachedReturn.notSupported
    some (p.1, p.2, evs, 0)
  else
    _vdo_udp_loop 5 (increment_udp_message_id st) evs 0

/-- Outcome of the memcached_vdo failure-handling tail: a C assert violation
at a numbered site, or an ordinary return value. -/
inductive VdoOutcome
  | assert_violation (site : Nat)
  | ret (rc : MemcachedReturn)
deriving DecidableEq, Repr

/-- The failure-handling tail of memcached_vdo on its TCP path, do.cc lines
111 to 135, as a function of whether assert statements are compiled in,
whether memcached_io_writev reported success, and the last error recorded on
the root.  Site 1 is the assert at line 115 (requiring the last error to
equal success), site 2 the assert at line 118 (requiring it to differ from
success) inside the branch guarded by the last error equalling success.  rc
enters this tail as MEMCACHED_SUCCESS; the reply-tracking increment on the
success path does not affect the returned value. -/
def memcached_vdo_tcp_tail (assert_enabled sent_success : Bool)
    (last_error : MemcachedReturn) : VdoOutcome :=
  if sent_success = false then
    if assert_enabled ∧ ¬ last_error = MemcachedReturn.success then
      VdoOutcome.assert_violation 1
    else if last_error = MemcachedReturn.success then
      if assert_enabled then VdoOutcome.assert_violation 2
      else VdoOutcome.ret MemcachedReturn.writeFailure
    else VdoOutcome.ret last_error
  else VdoOutcome.ret MemcachedReturn.success

/-- The per-connection fields the readable-server selector reads. -/
structure ServerInfo where
  read_buffer_length : Nat
  response_count : Nat
  fd : Nat
deriving DecidableEq, Repr

/-- A default server record, used as the getD fallback. -/
def sv0 : ServerInfo where
  read_buffer_length := 0
  response_count := 0
  fd := 0

/-- The candidate cap of the selector, io.cc line 1000. -/
def MAX_SERVERS_TO_POLL : Nat := 100

/-- Result of the selector's first scan: a connection with buffered data, or
the collected poll candidates (their descriptors, in scan order). -/
inductive SelScan
  | found (idx : Nat)
  | cands (fds : List Nat)
deriving DecidableEq, Repr

/-- The first pass of memcached_io_get_readable_server, io.cc lines 1004 to
1020: scan while the candidate count is below the cap, returning the first
connection with buffered unread bytes, and collecting connections with a
positive pending-response count as poll candidates. -/
def readable_scan : List ServerInfo → Nat → List Nat → SelScan
  | [], _, cands => SelScan.cands cands
  | s :: rest, x, cands =>
    if cands.length < MAX_SERVERS_TO_POLL then
      if 0 < s.read_buffer_length then SelScan.found x
      else if 0 < s.response_count then readable_scan rest (x + 1) (cands ++ [s.fd])
      else readable_scan rest (x + 1) cands
    else SelScan.cands cands

/-- The fallback of the selector for fewer than two candidates, io.cc lines
1022 to 1036: the first connection with a positive pending-response count. -/
def pickPending : List ServerInfo → Nat → Option Nat
  | [], _ => none
  | s :: rest, x => if 0 < s.response_count then some x else pickPending rest (x + 1)

/-- Resolve a descriptor back to the first connection holding it, io.cc lines
1052 to 1060. -/
def findByFd : List ServerInfo → Nat → Nat → Option Nat
  | [], _, _ => none
  | s :: rest, x, fd => if s.fd = fd then some x else findByFd rest (x + 1) fd

/-- Walk the candidates in order and return the first readable one, resolved
back to its owning connection, io.cc lines 1048 to 1062. -/
def resolveReadable (servers : List ServerInfo) : List Nat → List Nat → Option Nat
  | [], _ => none
  | fd :: cands, readable =>
    if fd ∈ readable then
      match findByFd servers 0 fd with
      | some y => some y
      | none => resolveReadable servers cands readable
    else resolveReadable servers cands readable

/-- memcached_io_get_readable_server, io.cc lines 995 to 1066.  The result
carries the selected connection index (if any), the error recorded on the
root by a failing poll (if any), and the remaining script. -/
def memcached_io_get_readable_server (servers : List ServerInfo) (evs : List Ev) :
    Option (Option Nat × Option MemcachedReturn × List Ev) :=
  match readable_scan servers 0 [] with
  | SelScan.found x => some (some x, none, evs)
  | SelScan.cands cands =>
    if cands.length < 2 then some (pickPending servers 0, none, evs)
    else
      match evs with
      | Ev.poll_multi r :: evs1 =>
        match r with
        | PollMultiResult.err e => some (none, some (MemcachedReturn.errno e), evs1)
        | PollMultiResult.timeout => some (none, none, evs1)
        | PollMultiResult.ready readable =>
          some (resolveReadable servers cands readable, none, evs1)
      | _ => none

/-- The server set driving the C7 counterexample: one hundred connections with
a pending response but nothing buffered, followed by one connection holding
buffered unread bytes. -/
def c7servers : List ServerInfo :=
  List.replicate 100 { read_buffer_length := 0, response_count := 1, fd := 5 } ++
    [{ read_buffer_length := 7, response_count := 0, fd := 6 }]

/-- Number of poll candidates (connections with a positive pending-response
count) in a server list prefix. -/
def candCount : List ServerInfo → Nat
  | [] => 0
  | s :: rest => (if 0 < s.response_count then 1 else 0) + candCount rest

/-- Closing a socket always invalidates the descriptor. -/
theorem close_socket_fd_valid (ok : Bool) (st : memcached_instance_st) :
    (close_socket ok st).fd_valid = false := by
  unfold close_socket
  by_cases h : st.fd_valid <;> simp [h]

/-- Closing a socket always moves the lifecycle state to NEW. -/
theorem close_socket_state (ok : Bool) (st : memcached_instance_st) :
    (close_socket ok st).state = ServerState.new := by
  unfold close_socket
  by_cases h : st.fd_valid <;> simp [h]

/-- Closing a socket does not touch the recorded error. -/
theorem close_socket_last_error (ok : Bool) (st : memcached_instance_st) :
    (close_socket ok st).last_error = st.last_error := by
  unfold close_socket
  by_cases h : st.fd_valid <;> simp [h]

/-- C8 counterexample: a connection whose read-wait tally is 7 keeps that tally
after close_socket, so not all counters of the connection are zero afterwards,
refuting the claim that close_socket zeroes all counters. -/
theorem c8_counterexample :
    (close_socket true { inst0 with io_wait_count_read := 7 }).io_wait_count_read = 7 ∧
    (7 : Nat) ≠ 0 :=
  ⟨rfl, by decide⟩

/-- C8 amended: after close_socket the lifecycle state is NEW, the read buffer
length is zero with the read cursor at the buffer start, the write-buffer
offset equals the UDP datagram header size when the transport is UDP (with a
root present) and zero otherwise, the shutdown flag is cleared, version
information is reset, and the bytes-sent counter and pending-response count
are zeroed, all regardless of whether the shutdown system call succeeded; but
the read-wait and write-wait tallies and the cumulative bytes-read counter are
left unchanged, so not every counter of the connection is zero. -/
theorem c8_close_socket_amended (ok ok2 : Bool) (st : memcached_instance_st) :
    (close_socket ok st).state = ServerState.new ∧
    (close_socket ok st).read_buffer_length = 0 ∧
    (close_socket ok st).read_ptr_off = 0 ∧
    (close_socket ok st).write_buffer_offset =
      (if st.has_root && st.root.is_udp then UDP_DATAGRAM_HEADER_LENGTH else 0) ∧
    (close_socket ok st).is_shutting_down = false ∧
    (close_socket ok st).major_version = 255 ∧
    (close_socket ok st).minor_version = 255 ∧
    (close_socket ok st).micro_version = 255 ∧
    (close_socket ok st).io_bytes_sent = 0 ∧
    (close_socket ok st).cursor_active = 0 ∧
    (close_socket ok st).io_wait_count_read = st.io_wait_count_read ∧
    (close_socket ok st).io_wait_count_write = st.io_wait_count_write ∧
    (close_socket ok st).io_wait_count_bytes_read = st.io_wait_count_bytes_read ∧
    close_socket ok st = close_socket ok2 st := by
  unfold close_socket
  by_cases h : st.fd_valid <;> simp [h]

/-- Recording an error does not change the descriptor or the lifecycle state. -/
theorem set_error_fd_state (st : memcached_instance_st) (rc : MemcachedReturn) :
    (memcached_set_error st rc).2.fd_valid = st.fd_valid ∧
    (memcached_set_error st rc).2.state = st.state := by
  constructor <;> rfl

/-- When the retry loop of io_wait falls through on a given script, io_wait
closes the connection and surfaces the last recorded error, or a generic
connection failure when none was recorded. -/
theorem io_wait_exhaust (st : memcached_instance_st) (pollout : Bool) (evs rest : List Ev)
    (ht : ¬ st.root.poll_timeout = 0)
    (hloop : ∀ stx : memcached_instance_st,
      io_wait_loop 5 stx evs = some (IoWaitLoopOut.fell, stx, rest)) :
    ∃ st2, io_wait st pollout ((if pollout then [Ev.purge true] else []) ++ evs) =
        some (st.last_error.getD MemcachedReturn.connectionFailure, st2, rest) ∧
      st2.fd_valid = false ∧ st2.state = ServerState.new := by
  cases pollout <;>
  · simp only [io_wait, io_wait_after_purge, Bool.false_eq_true, if_false, if_true,
      List.singleton_append, List.nil_append, hloop, ht]
    simp only [memcached_quit_server, memcached_has_error, memcached_instance_error_return,
      close_socket_last_error]
    cases h : st.last_error with
    | none =>
      simp only [memcached_set_error, Option.isSome_none, Bool.false_eq_true, if_false,
        Option.getD_none]
      exact ⟨_, rfl, by simp [close_socket_fd_valid], by simp [close_socket_state]⟩
    | some e0 =>
      simp only [Option.isSome_some, if_true, Option.getD_some]
      exact ⟨_, rfl, by simp [close_socket_fd_valid], by simp [close_socket_state]⟩

/-- C3 counterexample: with a nonzero poll timeout and five scripted
interruptions-by-signal, io_wait consumes only four poll events before
exhausting its retries and closing the connection (the fifth scripted
interruption is left unconsumed in the returned script), refuting the claimed
budget of five attempts for the readiness wait. -/
theorem c3_counterexample :
    (io_wait inst0 false (List.replicate 5 (Ev.poll (PollResult.err Errno.eintr)))).map
      (fun r => (r.1, r.2.2)) =
      some (MemcachedReturn.connectionFailure, [Ev.poll (PollResult.err Errno.eintr)]) := rfl

/-- C3 amended: for every connection with a nonzero configured poll timeout
and every requested interest, io_wait retries the underlying readiness wait on
interruption-by-signal (EINTR or ERESTART) and on the spurious case where an
error condition is reported but the queried socket error is zero, but only up
to 4 attempts (the loop counter starts at 5 and is pre-decremented before the
test); on exhausting those retries it closes the connection and surfaces its
last recorded error, or a generic connection-failure error if none was
recorded. -/
theorem c3_io_wait_retry_exhaustion (st : memcached_instance_st) (pollout : Bool)
    (rest : List Ev) (e : Errno)
    (he : e = Errno.eintr ∨ e = Errno.erestart)
    (ht : ¬ st.root.poll_timeout = 0) :
    (∃ st2, io_wait st pollout ((if pollout then [Ev.purge true] else []) ++
        (List.replicate 4 (Ev.poll (PollResult.err e)) ++ rest)) =
        some (st.last_error.getD MemcachedReturn.connectionFailure, st2, rest) ∧
      st2.fd_valid = false ∧ st2.state = ServerState.new) ∧
    (∃ st3, io_wait st pollout ((if pollout then [Ev.purge true] else []) ++
        (spuriousBlock ++ spuriousBlock ++ spuriousBlock ++ spuriousBlock ++ rest)) =
        some (st.last_error.getD MemcachedReturn.connectionFailure, st3, rest) ∧
      st3.fd_valid = false ∧ st3.state = ServerState.new) :=
  ⟨io_wait_exhaust st pollout _ rest ht
      (fun stx => by rcases he with rfl | rfl <;> rfl),
   io_wait_exhaust st pollout _ rest ht (fun stx => rfl)⟩

/-- C3 witness: the amended io_wait theorem applied to the default connection,
read interest, four scripted interruptions and an empty remainder. -/
theorem c3_witness :
    ∃ st2, io_wait inst0 false ((if false then [Ev.purge true] else []) ++
        (List.replicate 4 (Ev.poll (PollResult.err Errno.eintr)) ++ ([] : List Ev))) =
        some (inst0.last_error.getD MemcachedReturn.connectionFailure, st2, ([] : List Ev)) ∧
      st2.fd_valid = false ∧ st2.state = ServerState.new :=
  (c3_io_wait_retry_exhaustion inst0 false [] Errno.eintr (Or.inl rfl) (by decide)).1

/-- C2 counterexample: a refill that receives the two bytes 65, 66 into a
connection whose previous data length is 5 and whose bytes-sent counter is 9
ends with data length 2 (assigned from strlen, not appended) and with the
bytes-sent counter zeroed, refuting the claim that the refill appends the
received count to the tallies without zeroing any other counter. -/
theorem c2_counterexample :
    ((_io_fill 4 { inst0 with io_bytes_sent := 9, read_data_length := 5 }
        [Ev.recv (RecvResult.bytes [65, 66])]).map
      (fun r => (r.1, r.2.1.read_data_length, r.2.1.io_bytes_sent,
                 r.2.1.io_wait_count_bytes_read, r.2.1.read_ptr_off))) =
      some (MemcachedReturn.success, 2, 0, 2, 0) ∧
    (2 : Nat) ≠ 5 + 2 ∧ (0 : Nat) ≠ 9 :=
  ⟨rfl, by decide, by decide⟩

/-- C2 amended: whenever the refill completes with a positive receive result
of n bytes (after any number of retried interruptions), it adds n to the
cumulative bytes-read counter and resets the read cursor to the buffer start,
but it assigns (rather than appends to) the read buffer's data length and
occupied length, setting both to the length of the NUL-terminated prefix of
the refilled read buffer, and it zeroes the connection's bytes-sent counter;
the wait tallies, the recorded error, the write buffer offset and the
descriptor are untouched. -/
theorem c2_io_fill_positive (st : memcached_instance_st) (bs : List Nat) (k : Nat)
    (rest : List Ev) (hbs : bs ≠ []) :
    ∃ st2, _io_fill (k + 1) st
        (List.replicate k (Ev.recv (RecvResult.err Errno.eintr)) ++
          Ev.recv (RecvResult.bytes bs) :: rest) =
        some (MemcachedReturn.success, st2, rest) ∧
      st2.read_buffer = bufWrite st.read_buffer 0 bs ∧
      st2.read_data_length = bufStrlen (bufWrite st.read_buffer 0 bs) ∧
      st2.read_buffer_length = bufStrlen (bufWrite st.read_buffer 0 bs) ∧
      st2.read_ptr_off = 0 ∧
      st2.io_bytes_sent = 0 ∧
      st2.io_wait_count_bytes_read = st.io_wait_count_bytes_read + bs.length ∧
      st2.io_wait_count_read = st.io_wait_count_read ∧
      st2.io_wait_count_write = st.io_wait_count_write ∧
      st2.last_error = st.last_error ∧
      st2.write_buffer_offset = st.write_buffer_offset ∧
      st2.fd_valid = st.fd_valid := by
  induction k with
  | zero =>
    cases bs with
    | nil => exact absurd rfl hbs
    | cons b bt =>
      exact ⟨_, rfl, rfl, rfl, rfl, rfl, rfl, rfl, rfl, rfl, rfl, rfl, rfl⟩
  | succ k ih =>
    rw [List.replicate_succ, List.cons_append]
    exact ih

/-- C2 witness: the amended refill theorem applied to the default connection,
one retried interruption and the two received bytes 65, 66. -/
theorem c2_witness :
    ∃ st2, _io_fill (1 + 1) inst0
        (List.replicate 1 (Ev.recv (RecvResult.err Errno.eintr)) ++
          Ev.recv (RecvResult.bytes [65, 66]) :: ([] : List Ev)) =
        some (MemcachedReturn.success, st2, ([] : List Ev)) ∧
      st2.read_buffer = bufWrite inst0.read_buffer 0 [65, 66] ∧
      st2.read_data_length = bufStrlen (bufWrite inst0.read_buffer 0 [65, 66]) ∧
      st2.read_buffer_length = bufStrlen (bufWrite inst0.read_buffer 0 [65, 66]) ∧
      st2.read_ptr_off = 0 ∧
      st2.io_bytes_sent = 0 ∧
      st2.io_wait_count_bytes_read = inst0.io_wait_count_bytes_read + [65, 66].length ∧
      st2.io_wait_count_read = inst0.io_wait_count_read ∧
      st2.io_wait_count_write = inst0.io_wait_count_write ∧
      st2.last_error = inst0.last_error ∧
      st2.write_buffer_offset = inst0.write_buffer_offset ∧
      st2.fd_valid = inst0.fd_valid :=
  c2_io_fill_positive inst0 [65, 66] 1 [] (by decide)

/-- When no line terminator occurs among the next n - 1 unread bytes and at
least n unread bytes are buffered, the readline copy loop started below size
by exactly n runs until total_nr reaches size. -/
theorem readline_inner_hits_size :
    ∀ (n fuel : Nat) (st : memcached_instance_st) (size total : Nat) (out : List Nat),
      n < fuel → 0 < n → total + n = size → n ≤ st.read_buffer_length →
      (∀ i, i < n - 1 → st.read_buffer (st.read_ptr_off + i) ≠ 10) →
      ∃ st2 c2 out2,
        readline_inner fuel st size total false out = some (st2, size, c2, out2) := by
  intro n
  induction n with
  | zero =>
    intro fuel st size total out _ h0
    exact absurd h0 (by omega)
  | succ k ih =>
    intro fuel st size total out hf hk htot hlen hnl
    obtain ⟨f, rfl⟩ : ∃ f, fuel = f + 1 := ⟨fuel - 1, by omega⟩
    simp only [readline_inner]
    rw [if_pos ⟨by omega, by omega, by trivial⟩]
    cases k with
    | zero =>
      obtain ⟨f2, rfl⟩ : ∃ f2, f = f2 + 1 := ⟨f - 1, by omega⟩
      simp only [readline_inner]
      rw [if_neg (by intro hcon; omega)]
      have hts : total + 1 = size := by omega
      rw [hts]
      exact ⟨_, _, _, rfl⟩
    | succ k2 =>
      have hbyte : ¬ st.read_buffer st.read_ptr_off = 10 := by
        have h2 := hnl 0 (by omega)
        simpa using h2
      rw [if_neg hbyte]
      refine ih f _ size (total + 1) (out ++ [st.read_buffer st.read_ptr_off])
        (by omega) (by omega) (by omega) ?_ ?_
      · show k2 + 1 ≤ st.read_buffer_length - 1
        omega
      · intro i hi
        show st.read_buffer (st.read_ptr_off + 1 + i) ≠ 10
        have h2 := hnl (i + 1) (by omega)
        have heq : st.read_ptr_off + (i + 1) = st.read_ptr_off + 1 + i := by omega
        rw [heq] at h2
        exact h2

/-- C1 counterexample: a destination of capacity 4 and incoming bytes 97, 98,
99 followed by the terminator 10 (three data bytes plus the terminator, all
already buffered) make memcached_io_readline return MEMCACHED_PROTOCOL_ERROR
with total_nr equal to 4, not success, because the size check fires even when
the byte that reached max_size is the terminator; this refutes the claimed
success half of the readline boundary. -/
theorem c1_counterexample :
    ((memcached_io_readline 10 c1inst 4 []).map (fun r => (r.1, r.2.1, r.2.2.1))) =
      some (MemcachedReturn.protocolError, 4, [97, 98, 99, 10]) := rfl

/-- C1 amended: for every connection whose read buffer already holds at least
max_size unread bytes with no terminator among the first max_size - 1 of
them, memcached_io_readline returns MEMCACHED_PROTOCOL_ERROR with total_nr
equal to max_size; this covers both the case of max_size bytes with no
terminator at all and the case of max_size - 1 data bytes followed by the
terminator, so success with total_nr equal to max_size never occurs. -/
theorem c1_readline_protocol_error (fuel size : Nat) (st : memcached_instance_st)
    (evs : List Ev)
    (hs : 0 < size) (hlen : size ≤ st.read_buffer_length) (hf : size + 1 < fuel)
    (hnl : ∀ i, i < size - 1 → st.read_buffer (st.read_ptr_off + i) ≠ 10) :
    ∃ out st2, memcached_io_readline fuel st size evs =
      some (MemcachedReturn.protocolError, size, out, st2, evs) := by
  obtain ⟨f, rfl⟩ : ∃ f, fuel = f + 1 := ⟨fuel - 1, by omega⟩
  unfold memcached_io_readline
  simp only [memcached_io_readline_loop]
  rw [if_neg (by simp)]
  rw [if_neg (by omega)]
  obtain ⟨st2, c2, out2, hinner⟩ :=
    readline_inner_hits_size size f st size 0 [] (by omega) hs (by omega) hlen hnl
  simp only [hinner]
  rw [if_pos trivial]
  exact ⟨out2, st2, rfl⟩

/-- C1 witness: the amended readline theorem applied to the concrete
connection holding 97, 98, 99, 10 with max_size 4. -/
theorem c1_witness :
    ∃ out st2, memcached_io_readline 10 c1inst 4 [] =
      some (MemcachedReturn.protocolError, 4, out, st2, ([] : List Ev)) :=
  c1_readline_protocol_error 10 4 c1inst [] (by decide) (by decide) (by decide)
    (by decide)

/-- C9 counterexample: a connection with an empty write buffer whose
input-drain (purge) step fails makes io_flush return false with the error
out-parameter left at the caller's value, refuting the claim that flushing an
empty write buffer always returns success. -/
theorem c9_counterexample :
    io_flush 5 inst0 true MemcachedReturn.failure [Ev.purge false] =
      some (false, MemcachedReturn.failure, inst0, []) := rfl

/-- C9 amended: for every connection whose write buffer is empty, flushing
with a successful input-drain (purge) step is a no-op returning success: no
send event is consumed, the connection (and in particular its zero
write-buffer offset) is unchanged, and the reported error is success; when
the drain step fails, however, io_flush reports failure even though the write
buffer is empty, leaving the error out-parameter untouched. -/
theorem c9_flush_amended (fuel : Nat) (st : memcached_instance_st)
    (with_flush : Bool) (err_in : MemcachedReturn) (evs : List Ev)
    (hoff : st.write_buffer_offset = 0) (hfuel : 0 < fuel) :
    io_flush fuel st with_flush err_in (Ev.purge true :: evs) =
      some (true, MemcachedReturn.success, st, evs) ∧
    io_flush fuel st with_flush err_in (Ev.purge false :: evs) =
      some (false, err_in, st, evs) := by
  obtain ⟨f, rfl⟩ : ∃ f, fuel = f + 1 := ⟨fuel - 1, by omega⟩
  constructor
  · simp only [io_flush, hoff, io_flush_loop, if_true]
    have heta : ({ st with write_buffer_offset := 0 } : memcached_instance_st) = st := by
      rw [← hoff]
    rw [heta]
  · rfl

/-- C9 witness: the amended flush theorem applied to the default connection
(empty write buffer) with flush requested and an arbitrary caller error. -/
theorem c9_witness :
    io_flush 1 inst0 true MemcachedReturn.failure (Ev.purge true :: ([] : List Ev)) =
      some (true, MemcachedReturn.success, inst0, ([] : List Ev)) ∧
    io_flush 1 inst0 true MemcachedReturn.failure (Ev.purge false :: ([] : List Ev)) =
      some (false, MemcachedReturn.failure, inst0, ([] : List Ev)) :=
  c9_flush_amended 1 inst0 true MemcachedReturn.failure [] rfl (by decide)

/-- C6 counterexample: a single one-byte part is fully buffered, so the
requested total and the written total are both 1, but the trailing flush then
fails and memcached_io_writev returns false; equal sums therefore do not imply
a true result, refuting the claimed equivalence. -/
theorem c6_counterexample :
    ((memcached_io_writev 5 inst0 [[65]] true
        [Ev.purge true, Ev.send (SendResult.err Errno.epipe)]).map
      (fun r => (r.1, r.2.1, r.2.2.1))) = some (false, 1, 1) := rfl

/-- C6 amended: memcached_io_writev returns true only if the sum of bytes
written equals the sum of the requested part lengths, and a failure of the
underlying buffered write on any single non-empty part makes the part loop
return false immediately with the state and script of the failure point,
independent of all later parts; but the converse of the claimed equivalence
fails: a failing trailing flush yields false even when the two sums agree. -/
theorem c6_writev_amended :
    (∀ (fuel : Nat) (st : memcached_instance_st) (vectors : List (List Nat))
        (with_flush : Bool) (evs : List Ev) (ct t : Nat)
        (st2 : memcached_instance_st) (evs2 : List Ev),
      memcached_io_writev fuel st vectors with_flush evs =
        some (true, ct, t, st2, evs2) → ct = t) ∧
    (∀ (fuel : Nat) (st : memcached_instance_st) (v : List Nat)
        (rest : List (List Nat)) (ct t : Nat) (evs : List Ev) (w : Nat)
        (st1 : memcached_instance_st) (evs1 : List Ev),
      v ≠ [] →
      _io_write fuel st v false evs = some (false, w, st1, evs1) →
      memcached_io_writev_loop fuel st (v :: rest) ct t evs =
        some (false, ct + v.length, t, st1, evs1)) := by
  constructor
  · intro fuel st vectors wf evs ct t st2 evs2 h
    unfold memcached_io_writev at h
    split at h
    · cases h
    · simp at h
    · split at h
      · split at h
        · cases h
        · simp at h
        · simp only [Option.some.injEq, Prod.mk.injEq, decide_eq_true_eq] at h
          omega
      · simp only [Option.some.injEq, Prod.mk.injEq, decide_eq_true_eq] at h
        omega
  · intro fuel st v rest ct t evs w st1 evs1 hv hw
    cases v with
    | nil => exact absurd rfl hv
    | cons b bt =>
      simp only [memcached_io_writev_loop]
      rw [if_neg (by simp)]
      simp only [hw]

/-- C6 witness: the first half of the amended theorem applied to a successful
one-part run with equal sums, and the second half applied to a part that
fills the write buffer so that the mid-part flush fails on a failing drain. -/
theorem c6_witness :
    ((1 : Nat) = 1) ∧
    ((memcached_io_writev_loop 2 c6full ([65] :: [[66]]) 0 0 [Ev.purge false]).map
        (fun r => (r.1, r.2.1, r.2.2.1))) = some (false, 0 + [65].length, 0) := by
  refine ⟨c6_writev_amended.1 5 inst0 [[65]] false [] 1 1 _ _ rfl, ?_⟩
  rw [c6_writev_amended.2 2 c6full [65] [[66]] 0 0 [Ev.purge false] _ _ _
    (by decide) rfl]
  rfl

/-- The UDP send loop consumes at most its counter's worth of sendmsg calls:
the count grows by at most n beyond its starting value. -/
theorem _vdo_udp_loop_count :
    ∀ (n : Nat) (st : memcached_instance_st) (evs : List Ev) (k : Nat)
      (r : MemcachedReturn) (st2 : memcached_instance_st) (evs2 : List Ev) (k2 : Nat),
      _vdo_udp_loop n st evs k = some (r, st2, evs2, k2) → k2 ≤ k + n := by
  intro n
  induction n using Nat.strong_induction_on with
  | _ n ih =>
    match n with
    | 0 =>
      intro st evs k r st2 evs2 k2 h
      simp only [_vdo_udp_loop, Option.some.injEq, Prod.mk.injEq] at h
      omega
    | 1 =>
      intro st evs k r st2 evs2 k2 h
      simp only [_vdo_udp_loop, Option.some.injEq, Prod.mk.injEq] at h
      omega
    | m + 2 =>
      intro st evs k r st2 evs2 k2 h
      simp only [_vdo_udp_loop] at h
      split at h
      · split at h
        · simp only [Option.some.injEq, Prod.mk.injEq] at h
          omega
        · have h2 := ih (m + 1) (by omega) _ _ _ _ _ _ _ h
          omega
        · split at h <;>
          · simp only [Option.some.injEq, Prod.mk.injEq] at h
            omega
      · cases h

/-- Skipping j scripted zero results advances the loop counter down by j and
the consumed count up by j. -/
theorem _vdo_udp_loop_skip_zeros :
    ∀ (j n : Nat) (st : memcached_instance_st) (evs : List Ev) (k : Nat),
      _vdo_udp_loop (n + j + 2) st
        (List.replicate j (Ev.sendmsg (SendResult.sent 0)) ++ evs) k =
      _vdo_udp_loop (n + 2) st evs (k + j) := by
  intro j
  induction j with
  | zero => intro n st evs k; rfl
  | succ j ih =>
    intro n st evs k
    have h1 : n + (j + 1) + 2 = n + j + 1 + 2 := by omega
    rw [h1, List.replicate_succ, List.cons_append]
    have h2 : _vdo_udp_loop (n + j + 1 + 2) st
        (Ev.sendmsg (SendResult.sent 0) ::
          (List.replicate j (Ev.sendmsg (SendResult.sent 0)) ++ evs)) k =
        _vdo_udp_loop (n + j + 1 + 1) st
          (List.replicate j (Ev.sendmsg (SendResult.sent 0)) ++ evs) (k + 1) := rfl
    rw [h2]
    have h3 : n + j + 1 + 1 = n + j + 2 := by omega
    rw [h3, ih n st evs (k + 1)]
    have h4 : k + 1 + j = k + (j + 1) := by omega
    rw [h4]

/-- A scripted sendmsg error other than EMSGSIZE maps at once to a fatal
errno result. -/
theorem _vdo_udp_loop_err (n : Nat) (st : memcached_instance_st) (evs : List Ev)
    (k : Nat) (e : Errno) (he : ¬ e = Errno.emsgsize) :
    _vdo_udp_loop (n + 2) st (Ev.sendmsg (SendResult.err e) :: evs) k =
      some (MemcachedReturn.errno e, (memcached_set_errno st e).2, evs, k + 1) := by
  simp only [_vdo_udp_loop]
  rw [if_neg he]
  rfl

/-- C4: for every UDP datagram send, the kernel datagram-send call is
attempted at most 5 times (the code in fact stops after 4, since the retry
counter is pre-decremented from 5), a new attempt being made only while the
previous call reported neither success nor a definitive error: a scripted
EMSGSIZE is immediately fatal as a write failure and never retried, any other
negative result immediately maps to a fatal errno result, and a positive
result stops the loop with success. -/
theorem c4_vdo_udp_attempts :
    (∀ (st : memcached_instance_st) (v0 : Bool) (l : Nat) (evs : List Ev)
        (r : MemcachedReturn) (st2 : memcached_instance_st) (evs2 : List Ev) (k : Nat),
      _vdo_udp st v0 l evs = some (r, st2, evs2, k) → k ≤ 5) ∧
    (∀ (st : memcached_instance_st) (j : Nat) (rest : List Ev), j ≤ 3 →
      _vdo_udp st true 0 (List.replicate j (Ev.sendmsg (SendResult.sent 0)) ++
          Ev.sendmsg (SendResult.err Errno.emsgsize) :: rest) =
        some (MemcachedReturn.writeFailure,
          (memcached_set_error (increment_udp_message_id st)
            MemcachedReturn.writeFailure).2, rest, j + 1)) ∧
    (∀ (st : memcached_instance_st) (j : Nat) (rest : List Ev) (e : Errno),
      j ≤ 3 → ¬ e = Errno.emsgsize →
      _vdo_udp st true 0 (List.replicate j (Ev.sendmsg (SendResult.sent 0)) ++
          Ev.sendmsg (SendResult.err e) :: rest) =
        some (MemcachedReturn.errno e,
          (memcached_set_errno (increment_udp_message_id st) e).2, rest, j + 1)) ∧
    (∀ (st : memcached_instance_st) (j m : Nat) (rest : List Ev), j ≤ 3 →
      _vdo_udp st true 0 (List.replicate j (Ev.sendmsg (SendResult.sent 0)) ++
          Ev.sendmsg (SendResult.sent (m + 1)) :: rest) =
        some (MemcachedReturn.success, increment_udp_message_id st, rest, j + 1)) := by
  refine ⟨?_, ?_, ?_, ?_⟩
  · intro st v0 l evs r st2 evs2 k h
    unfold _vdo_udp at h
    split at h
    · simp only [Option.some.injEq, Prod.mk.injEq] at h
      omega
    · have h2 := _vdo_udp_loop_count 5 _ _ _ _ _ _ _ h
      omega
  · intro st j rest hj
    simp only [_vdo_udp]
    rw [if_neg (by simp)]
    have h5 : (5 : Nat) = 3 - j + j + 2 := by omega
    rw [h5, _vdo_udp_loop_skip_zeros]
    have h0 : 0 + j = j := by omega
    rw [h0]
    rfl
  · intro st j rest e hj he
    simp only [_vdo_udp]
    rw [if_neg (by simp)]
    have h5 : (5 : Nat) = 3 - j + j + 2 := by omega
    rw [h5, _vdo_udp_loop_skip_zeros]
    have h0 : 0 + j = j := by omega
    rw [h0]
    rw [_vdo_udp_loop_err (3 - j) _ rest j e he]
  · intro st j m rest hj
    simp only [_vdo_udp]
    rw [if_neg (by simp)]
    have h5 : (5 : Nat) = 3 - j + j + 2 := by omega
    rw [h5, _vdo_udp_loop_skip_zeros]
    have h0 : 0 + j = j := by omega
    rw [h0]
    rfl

/-- C4 witness: the attempt-count bound at a one-call success, the immediate
EMSGSIZE failure after one zero result, the immediate EPIPE failure with no
zero results, and a success after two zero results. -/
theorem c4_witness :
    (1 : Nat) ≤ 5 ∧
    _vdo_udp inst0 true 0 (List.replicate 1 (Ev.sendmsg (SendResult.sent 0)) ++
        Ev.sendmsg (SendResult.err Errno.emsgsize) :: ([] : List Ev)) =
      some (MemcachedReturn.writeFailure,
        (memcached_set_error (increment_udp_message_id inst0)
          MemcachedReturn.writeFailure).2, [], 1 + 1) ∧
    _vdo_udp inst0 true 0 (List.replicate 0 (Ev.sendmsg (SendResult.sent 0)) ++
        Ev.sendmsg (SendResult.err Errno.epipe) :: ([] : List Ev)) =
      some (MemcachedReturn.errno Errno.epipe,
        (memcached_set_errno (increment_udp_message_id inst0) Errno.epipe).2,
        [], 0 + 1) ∧
    _vdo_udp inst0 true 0 (List.replicate 2 (Ev.sendmsg (SendResult.sent 0)) ++
        Ev.sendmsg (SendResult.sent 1) :: ([] : List Ev)) =
      some (MemcachedReturn.success, increment_udp_message_id inst0, [], 2 + 1) :=
  ⟨c4_vdo_udp_attempts.1 inst0 true 0 [Ev.sendmsg (SendResult.sent 1)] _ _ _ 1 rfl,
   c4_vdo_udp_attempts.2.1 inst0 1 [] (by decide),
   c4_vdo_udp_attempts.2.2.1 inst0 0 [] Errno.epipe (by decide) (by decide),
   c4_vdo_udp_attempts.2.2.2 inst0 2 0 [] (by decide)⟩

/-- C5: when the UDP send retry loop exhausts its attempts with every kernel
call reporting neither success nor a definitive error (four scripted zero
results), the datagram send returns MEMCACHED_SUCCESS with no error recorded
on the connection or its root, and the remaining script untouched. -/
theorem c5_vdo_udp_exhaust_silent (st : memcached_instance_st) (rest : List Ev) :
    _vdo_udp st true 0 (List.replicate 4 (Ev.sendmsg (SendResult.sent 0)) ++ rest) =
      some (MemcachedReturn.success, increment_udp_message_id st, rest, 4) ∧
    (increment_udp_message_id st).last_error = st.last_error ∧
    (increment_udp_message_id st).root.last_error = st.root.last_error :=
  ⟨rfl, rfl, rfl⟩

/-- C10: in the failure-handling tail of memcached_vdo on the TCP path, every
execution that reaches the branch guarded by the last recorded error equalling
success violates the assert at line 118 when assertions are enabled (the
assert requires that same error to differ from success); with assertions
disabled that case returns MEMCACHED_WRITE_FAILURE; and with assertions
enabled the else-branch that would propagate a previously recorded error is
unreachable, because any execution with a non-success last error already
violates the assert at line 115. -/
theorem c10_vdo_assert :
    (∀ le : MemcachedReturn, le = MemcachedReturn.success →
      memcached_vdo_tcp_tail true false le = VdoOutcome.assert_violation 2) ∧
    (memcached_vdo_tcp_tail false false MemcachedReturn.success =
      VdoOutcome.ret MemcachedReturn.writeFailure) ∧
    (∀ le : MemcachedReturn, ¬ le = MemcachedReturn.success →
      memcached_vdo_tcp_tail true false le = VdoOutcome.assert_violation 1) := by
  refine ⟨?_, rfl, ?_⟩
  · intro le h
    subst h
    rfl
  · intro le h
    simp only [memcached_vdo_tcp_tail, h]
    simp [h]

/-- C10 witness: the tail evaluated with the last error equal to success under
both assertion modes, and with a timeout as the last error under enabled
assertions. -/
theorem c10_witness :
    memcached_vdo_tcp_tail true false MemcachedReturn.success =
      VdoOutcome.assert_violation 2 ∧
    memcached_vdo_tcp_tail false false MemcachedReturn.success =
      VdoOutcome.ret MemcachedReturn.writeFailure ∧
    memcached_vdo_tcp_tail true false MemcachedReturn.timeout =
      VdoOutcome.assert_violation 1 :=
  ⟨c10_vdo_assert.1 MemcachedReturn.success rfl, c10_vdo_assert.2.1,
   c10_vdo_assert.2.2 MemcachedReturn.timeout (by decide)⟩

/-- When the first connection with buffered unread bytes sits at position i
and fewer candidates than the cap precede it, the selector's first scan finds
it. -/
theorem readable_scan_found :
    ∀ (l : List ServerInfo) (i x : Nat) (cands : List Nat),
      i < l.length →
      0 < (l.getD i sv0).read_buffer_length →
      (∀ j, j < i → (l.getD j sv0).read_buffer_length = 0) →
      cands.length + candCount (l.take i) < MAX_SERVERS_TO_POLL →
      readable_scan l x cands = SelScan.found (x + i) := by
  intro l
  induction l with
  | nil =>
    intro i x cands hi
    simp at hi
  | cons s rest ih =>
    intro i x cands hi hbuf hprev hcap
    cases i with
    | zero =>
      simp only [readable_scan]
      rw [if_pos (by simp only [List.take_zero, candCount] at hcap; omega)]
      rw [if_pos (by simpa using hbuf)]
      rw [Nat.add_zero]
    | succ i2 =>
      have hs0 : s.read_buffer_length = 0 := by simpa using hprev 0 (by omega)
      have hcands : cands.length < MAX_SERVERS_TO_POLL := by
        simp only [List.take_succ_cons, candCount] at hcap
        omega
      simp only [readable_scan]
      rw [if_pos hcands]
      rw [if_neg (by omega)]
      by_cases hr : 0 < s.response_count
      · rw [if_pos hr]
        have hrec := ih i2 (x + 1) (cands ++ [s.fd])
          (by simp only [List.length_cons] at hi; omega)
          (by simpa using hbuf)
          (by
            intro j hj
            have h2 := hprev (j + 1) (by omega)
            simpa using h2)
          (by
            simp only [List.take_succ_cons, candCount, if_pos hr,
              List.length_append, List.length_cons, List.length_nil] at hcap ⊢
            omega)
        rw [hrec]
        have heq : x + 1 + i2 = x + (i2 + 1) := by omega
        rw [heq]
      · rw [if_neg hr]
        have hrec := ih i2 (x + 1) cands
          (by simp only [List.length_cons] at hi; omega)
          (by simpa using hbuf)
          (by
            intro j hj
            have h2 := hprev (j + 1) (by omega)
            simpa using h2)
          (by
            simp only [List.take_succ_cons, candCount, if_neg hr] at hcap
            omega)
        rw [hrec]
        have heq : x + 1 + i2 = x + (i2 + 1) := by omega
        rw [heq]

/-- C7 counterexample: in a server set where one hundred connections with a
pending response precede the single connection holding buffered unread bytes
(at index 100), the selector exhausts its candidate cap before reaching the
buffered connection, issues the poll (consuming the scripted poll event) and
returns no connection, refuting the claim that a buffered connection is
always returned immediately without a poll. -/
theorem c7_counterexample :
    memcached_io_get_readable_server c7servers
        [Ev.poll_multi PollMultiResult.timeout] = some (none, none, []) ∧
    (c7servers.getD 100 sv0).read_buffer_length = 7 ∧
    c7servers.length = 101 :=
  ⟨rfl, by decide, by decide⟩

/-- C7 amended: the selector returns the first connection holding buffered
unread bytes immediately and without issuing any poll (the script is left
untouched), provided fewer than 100 connections with a pending-response count
precede it in the scan order; other connections may hold pending responses.
When 100 such candidates occur first, the scan stops at the cap and a poll is
issued instead. -/
theorem c7_selector_amended (servers : List ServerInfo) (evs : List Ev) (i : Nat)
    (hi : i < servers.length)
    (hbuf : 0 < (servers.getD i sv0).read_buffer_length)
    (hprev : ∀ j, j < i → (servers.getD j sv0).read_buffer_length = 0)
    (hcap : candCount (servers.take i) < MAX_SERVERS_TO_POLL) :
    memcached_io_get_readable_server servers evs = some (some i, none, evs) := by
  unfold memcached_io_get_readable_server
  rw [readable_scan_found servers i 0 [] hi hbuf hprev (by simpa using hcap)]
  simp

/-- C7 witness: the amended selector theorem applied to a two-connection set
whose first connection only has a pending response and whose second holds
buffered bytes. -/
theorem c7_witness :
    memcached_io_get_readable_server
        [{ read_buffer_length := 0, response_count := 1, fd := 3 },
         { read_buffer_length := 5, response_count := 0, fd := 4 }] [] =
      some (some 1, none, []) :=
  c7_selector_amended _ [] 1 (by decide) (by decide) (by decide) (by decide)
